import Mathlib

/-!
Verification of the ColdMailSaaS sending-capacity, campaign-lifecycle and
A/B-testing logic.  Each definition below is a shallow embedding of one
TypeScript function or entity getter from the repository; theorems settle
the specification's claims about them.

Machine numbers that the source manipulates as JS `number` counters are
modelled as `Nat`; values on which the source performs fractional
arithmetic (variant weights, engagement rates, scores) are modelled as
`Rat`, with JS `Math.round(x * 100) / 100` embedded as an exact rational
rounding step.
-/

/- ----------------------------------------------------------------------
   RateLimitingService.checkRateLimit  (rate-limiting module)

   The service keeps one `ApiUsage` record per (userId, endpoint, window)
   holding a single `count`.  A call looks the record up; if absent it
   creates it with count 1 and admits; if present with count >= limit it
   rejects without touching the record; otherwise it increments the count
   and admits.  The state we track is the looked-up record's count
   (`none` = no record found), and the result is the boolean the service
   returns (there is no per-window-kind result in the source).
   ---------------------------------------------------------------------- -/

def checkRateLimit (limit : Nat) (st : Option Nat) : Bool × Option Nat :=
  match st with
  | none => (true, some 1)
  | some c => if limit ≤ c then (false, some c) else (true, some (c + 1))

/-- The count stored in a usage record, `0` when no record exists. -/
def countOf (st : Option Nat) : Nat :=
  st.getD 0

/-- State of the usage record after `n` successive `checkRateLimit` calls
against the same (user, endpoint) record, starting from no record. -/
def iterState (limit : Nat) : Nat → Option Nat
  | 0 => none
  | n + 1 => (checkRateLimit limit (iterState limit n)).2

theorem checkRateLimit_step_bound (limit : Nat) (h : 1 ≤ limit) (st : Option Nat)
    (hst : countOf st ≤ limit) : countOf (checkRateLimit limit st).2 ≤ limit := by
  match st with
  | none => simpa [checkRateLimit, countOf] using h
  | some c =>
    by_cases hc : limit ≤ c
    · simpa [checkRateLimit, countOf, hc] using hst
    · simp only [checkRateLimit, countOf, hc, if_false, Option.getD_some]
      omega

/-- C1 (amended).  The repository's only admission check is the single-window
`checkRateLimit`: one consumed counter per (user, endpoint) usage record and a
bare boolean result (there are no minute/hour/day windows and no window kind in
the result).  Provided the ceiling is at least 1, the stored count never
exceeds the ceiling after any finite sequence of calls starting from no
record; a call admits iff the record is absent or its count is strictly below
the ceiling; a rejected call leaves the record unchanged; an admitted call
increments the count (creating the record at count 1). -/
theorem checkRateLimit_bounded_amended (limit : Nat) (h : 1 ≤ limit) :
    (∀ n, countOf (iterState limit n) ≤ limit)
    ∧ (∀ st, (checkRateLimit limit st).1 = true ↔
        st = none ∨ ∃ c, st = some c ∧ c < limit)
    ∧ (∀ st, (checkRateLimit limit st).1 = false → (checkRateLimit limit st).2 = st)
    ∧ (∀ c, c < limit → (checkRateLimit limit (some c)).2 = some (c + 1))
    ∧ (checkRateLimit limit none).2 = some 1 := by
  refine ⟨?_, ?_, ?_, ?_, rfl⟩
  · intro n
    induction n with
    | zero => simp [iterState, countOf]
    | succ n ih => exact checkRateLimit_step_bound limit h _ ih
  · intro st
    match st with
    | none => simp [checkRateLimit]
    | some c =>
      by_cases hc : limit ≤ c
      · simp only [checkRateLimit, hc, if_true]
        constructor
        · intro hfalse; exact absurd hfalse (by simp)
        · rintro (h1 | ⟨c', hc', hlt⟩)
          · exact absurd h1 (by simp)
          · cases hc'; omega
      · simp only [checkRateLimit, hc, if_false]
        constructor
        · intro _; exact Or.inr ⟨c, rfl, by omega⟩
        · intro _; trivial
  · intro st hfail
    match st with
    | none => simp [checkRateLimit] at hfail
    | some c =>
      by_cases hc : limit ≤ c
      · simp [checkRateLimit, hc]
      · simp [checkRateLimit, hc] at hfail
  · intro c hc
    simp [checkRateLimit, Nat.not_le.mpr hc]

/-- Witness for C1's amended theorem: ceiling 1, five calls, count stays ≤ 1,
and a record at the ceiling is rejected unchanged. -/
theorem checkRateLimit_bounded_amended_witness :
    countOf (iterState 1 5) ≤ 1 ∧ (checkRateLimit 1 (some 1)).2 = some 1 :=
  ⟨(checkRateLimit_bounded_amended 1 (by decide)).1 5,
   (checkRateLimit_bounded_amended 1 (by decide)).2.2.1 (some 1) (by decide)⟩

/-- C1 counterexample.  With ceiling 0 the very first admission from an empty
record is reported as success and stores count 1 > 0, so "the window's
consumed count never exceeds the ceiling" is false as stated, and the failure
result is a bare boolean rather than an exhausted window kind. -/
theorem checkRateLimit_zero_ceiling_exceeded :
    checkRateLimit 0 none = (true, some 1) ∧ ¬ countOf (some 1) ≤ 0 := by
  decide

/- ----------------------------------------------------------------------
   Mailbox entity (mailbox.entity.ts) and MailboxesService (mailboxes
   service): sending-identity status, business-hours eligibility and
   warmup advancement.
   ---------------------------------------------------------------------- -/

inductive MailboxStatus
  | pending
  | active
  | suspended
  | failed
  | warming_up
  deriving DecidableEq, Repr

/-- The `sendingConfig` jsonb column of a mailbox.  `businessHoursStart` /
`businessHoursEnd` are stored as "HH:MM" strings and split into hour and
minute numbers at the point of use; we carry the split pair. -/
structure SendingConfig where
  maxEmailsPerDay : Nat
  maxEmailsPerHour : Nat
  maxEmailsPerMinute : Nat
  warmupEnabled : Bool
  warmupRate : Nat
  warmupIncrement : Nat
  currentWarmupRate : Nat
  timezone : String
  businessHoursOnly : Bool
  businessHoursStartHour : Nat
  businessHoursStartMinute : Nat
  businessHoursEndHour : Nat
  businessHoursEndMinute : Nat
  businessDays : List Nat
  deriving DecidableEq, Repr

structure Mailbox where
  status : MailboxStatus
  isActive : Bool
  sendingConfig : Option SendingConfig
  deriving DecidableEq, Repr

/-- The wall-clock components the getter reads from `new Date()` — the
server's local clock (`getDay`, `getHours`, `getMinutes`). -/
structure LocalNow where
  weekday : Nat
  hour : Nat
  minute : Nat
  deriving DecidableEq, Repr

/-- `Mailbox.isReady`: `this.isActive && this.status === MailboxStatus.ACTIVE`. -/
def Mailbox.isReady (m : Mailbox) : Bool :=
  m.isActive && m.status == .active

/-- `Mailbox.isInBusinessHours`.  Returns true when `businessHoursOnly` is not
set (including when `sendingConfig` is absent); otherwise requires the current
local weekday to be a configured business day and the current local
minutes-of-day to lie between start and end inclusive.  The `timezone`
configuration field is never read. -/
def Mailbox.isInBusinessHours (m : Mailbox) (now : LocalNow) : Bool :=
  match m.sendingConfig with
  | none => true
  | some cfg =>
    if !cfg.businessHoursOnly then true
    else if !(cfg.businessDays.contains now.weekday) then false
    else
      let currentTime := now.hour * 60 + now.minute
      let startMinutes := cfg.businessHoursStartHour * 60 + cfg.businessHoursStartMinute
      let endMinutes := cfg.businessHoursEndHour * 60 + cfg.businessHoursEndMinute
      decide (startMinutes ≤ currentTime) && decide (currentTime ≤ endMinutes)

/-- The spec's `eligible(identity, now)` realised on the entity's own
predicates: ready for sending and inside the business-hours window. -/
def eligible (m : Mailbox) (now : LocalNow) : Bool :=
  m.isReady && m.isInBusinessHours now

/-- The eligibility predicate exactly as claim C2 words it (for comparison
with `eligible`): status active **or warming_up**, and, when business hours
are enabled, `now` on a configured weekday inside the inclusive window. -/
def specEligible (m : Mailbox) (now : LocalNow) : Bool :=
  (m.status == .active || m.status == .warming_up) &&
    (match m.sendingConfig with
     | none => true
     | some cfg =>
       if !cfg.businessHoursOnly then true
       else
         cfg.businessDays.contains now.weekday
           && decide (cfg.businessHoursStartHour * 60 + cfg.businessHoursStartMinute
                ≤ now.hour * 60 + now.minute)
           && decide (now.hour * 60 + now.minute
                ≤ cfg.businessHoursEndHour * 60 + cfg.businessHoursEndMinute))

/-- C2 (amended).  A mailbox is eligible iff its `isActive` flag is set, its
status is exactly `active` (a `warming_up` mailbox is **not** eligible), and —
when `businessHoursOnly` is enabled — the server-local now falls on a
configured weekday with the minutes-of-day inside the inclusive start..end
window; the configured `timezone` field is not consulted.  Mailboxes in
`pending`, `suspended`, `failed` or `warming_up` status are never eligible. -/
theorem eligible_iff_amended (m : Mailbox) (now : LocalNow) :
    eligible m now = true ↔
      m.isActive = true ∧ m.status = .active ∧
      (∀ cfg, m.sendingConfig = some cfg → cfg.businessHoursOnly = true →
        now.weekday ∈ cfg.businessDays ∧
        cfg.businessHoursStartHour * 60 + cfg.businessHoursStartMinute
          ≤ now.hour * 60 + now.minute ∧
        now.hour * 60 + now.minute
          ≤ cfg.businessHoursEndHour * 60 + cfg.businessHoursEndMinute) := by
  have hbhi : m.isInBusinessHours now = true ↔
      (∀ cfg, m.sendingConfig = some cfg → cfg.businessHoursOnly = true →
        now.weekday ∈ cfg.businessDays ∧
        cfg.businessHoursStartHour * 60 + cfg.businessHoursStartMinute
          ≤ now.hour * 60 + now.minute ∧
        now.hour * 60 + now.minute
          ≤ cfg.businessHoursEndHour * 60 + cfg.businessHoursEndMinute) := by
    cases hcfg : m.sendingConfig with
    | none => simp [Mailbox.isInBusinessHours, hcfg]
    | some cfg =>
      cases hon : cfg.businessHoursOnly with
      | false => simp [Mailbox.isInBusinessHours, hcfg, hon]
      | true =>
        cases hday : cfg.businessDays.contains now.weekday with
        | false =>
          have hnotmem : ¬ now.weekday ∈ cfg.businessDays := by simp at hday; exact hday
          simp [Mailbox.isInBusinessHours, hcfg, hon, hday, hnotmem]
        | true =>
          have hmem : now.weekday ∈ cfg.businessDays := by simpa using hday
          simp [Mailbox.isInBusinessHours, hcfg, hon, hday, hmem]
  simp only [eligible, Mailbox.isReady, Bool.and_eq_true, beq_iff_eq, hbhi, and_assoc]

/-- C2 counterexample.  A warming-up mailbox with no business-hours
restriction: the claim's predicate holds (status ∈ {active, warming_up}) but
the code's eligibility is false, because `isReady` demands status exactly
`active`. -/
theorem eligible_warming_up_not_eligible :
    eligible { status := .warming_up, isActive := true, sendingConfig := none }
        { weekday := 2, hour := 10, minute := 0 } = false
    ∧ specEligible { status := .warming_up, isActive := true, sendingConfig := none }
        { weekday := 2, hour := 10, minute := 0 } = true := by
  decide

/-- Errors surfaced by the mailbox service (`BadRequestException` messages). -/
inductive MailboxErr
  | onlyActiveCanWarmup
  | warmupNotEnabled
  deriving DecidableEq, Repr

/-- `MailboxesService.warmupMailbox`.  Rejects unless the mailbox status is
exactly `active`; rejects unless `sendingConfig.warmupEnabled` is set (a
missing `sendingConfig` also rejects); otherwise raises `currentWarmupRate`
to `min(currentWarmupRate + warmupIncrement, maxEmailsPerDay)` and sets the
status to `warming_up`. -/
def warmupMailbox (m : Mailbox) : Except MailboxErr Mailbox :=
  if m.status ≠ .active then .error .onlyActiveCanWarmup
  else
    match m.sendingConfig with
    | none => .error .warmupNotEnabled
    | some cfg =>
      if !cfg.warmupEnabled then .error .warmupNotEnabled
      else
        .ok { m with
          status := .warming_up,
          sendingConfig := some { cfg with
            currentWarmupRate :=
              min (cfg.currentWarmupRate + cfg.warmupIncrement) cfg.maxEmailsPerDay } }

/-- C3 (amended).  `warmupMailbox` succeeds iff the mailbox status is `active`
(not `warming_up`: advancing an already-warming mailbox is rejected) and
`warmupEnabled` is set; on success the new `currentWarmupRate` is
`min(currentWarmupRate + warmupIncrement, maxEmailsPerDay)` — so it never
exceeds the `maxEmailsPerDay` cap and is non-decreasing whenever the old
rate was within the cap — and the status always becomes `warming_up`: no
graduation to `active` at 80% of the cap (or at any rate) exists on this
path. -/
theorem warmupMailbox_amended (m : Mailbox) :
    ((∃ m', warmupMailbox m = .ok m') ↔
      m.status = .active ∧ ∃ cfg, m.sendingConfig = some cfg ∧ cfg.warmupEnabled = true)
    ∧ (∀ m' cfg, warmupMailbox m = .ok m' → m.sendingConfig = some cfg →
        m'.status = .warming_up
        ∧ m'.sendingConfig = some { cfg with
            currentWarmupRate :=
              min (cfg.currentWarmupRate + cfg.warmupIncrement) cfg.maxEmailsPerDay }
        ∧ (∀ cfg', m'.sendingConfig = some cfg' →
            cfg'.currentWarmupRate ≤ cfg.maxEmailsPerDay
            ∧ (cfg.currentWarmupRate ≤ cfg.maxEmailsPerDay →
                cfg.currentWarmupRate ≤ cfg'.currentWarmupRate))
        ∧ m'.isActive = m.isActive) := by
  constructor
  · constructor
    · rintro ⟨m', hm'⟩
      by_cases hst : m.status = .active
      · refine ⟨hst, ?_⟩
        cases hcfg : m.sendingConfig with
        | none => simp [warmupMailbox, hst, hcfg] at hm'
        | some cfg =>
          refine ⟨cfg, rfl, ?_⟩
          cases hen : cfg.warmupEnabled with
          | false => simp [warmupMailbox, hst, hcfg, hen] at hm'
          | true => rfl
      · simp [warmupMailbox, hst] at hm'
    · rintro ⟨hst, cfg, hcfg, hen⟩
      refine ⟨{ m with
        status := .warming_up,
        sendingConfig := some { cfg with
          currentWarmupRate :=
            min (cfg.currentWarmupRate + cfg.warmupIncrement) cfg.maxEmailsPerDay } }, ?_⟩
      simp [warmupMailbox, hst, hcfg, hen]
  · intro m' cfg hok hcfg
    by_cases hst : m.status = .active
    · rw [warmupMailbox] at hok
      simp only [hst, ne_eq, not_true_eq_false, if_false, ite_false] at hok
      rw [hcfg] at hok
      cases hen : cfg.warmupEnabled with
      | false => simp [hen] at hok
      | true =>
        simp only [hen, Bool.not_true, Bool.false_eq_true, if_false, Except.ok.injEq] at hok
        subst hok
        refine ⟨rfl, rfl, ?_, rfl⟩
        intro cfg' hcfg'
        simp only [Option.some.injEq] at hcfg'
        subst hcfg'
        constructor
        · exact min_le_right _ _
        · intro hle
          exact le_min (Nat.le_add_right _ _) hle
    · simp [warmupMailbox, hst] at hok

/-- Witness for C3's amended theorem: an active, warmup-enabled mailbox at
rate 50, increment 10, cap 1000 advances to rate 60 and status warming_up. -/
theorem warmupMailbox_amended_witness :
    (∃ m', warmupMailbox
      { status := .active, isActive := true,
        sendingConfig := some
          { maxEmailsPerDay := 1000, maxEmailsPerHour := 100, maxEmailsPerMinute := 10,
            warmupEnabled := true, warmupRate := 50, warmupIncrement := 10,
            currentWarmupRate := 50, timezone := "UTC", businessHoursOnly := false,
            businessHoursStartHour := 9, businessHoursStartMinute := 0,
            businessHoursEndHour := 17, businessHoursEndMinute := 0,
            businessDays := [1, 2, 3, 4, 5] } } = .ok m') :=
  (warmupMailbox_amended _).1.mpr ⟨rfl, _, rfl, rfl⟩

/-- C3 counterexample.  A mailbox whose status is `warming_up` with warmup
enabled — exactly the state in which the claim says `advance_warmup` is valid
— is rejected by the code with "Only active mailboxes can be warmed up". -/
theorem warmupMailbox_rejects_warming_up :
    warmupMailbox
      { status := .warming_up, isActive := true,
        sendingConfig := some
          { maxEmailsPerDay := 1000, maxEmailsPerHour := 100, maxEmailsPerMinute := 10,
            warmupEnabled := true, warmupRate := 50, warmupIncrement := 10,
            currentWarmupRate := 50, timezone := "UTC", businessHoursOnly := false,
            businessHoursStartHour := 9, businessHoursStartMinute := 0,
            businessHoursEndHour := 17, businessHoursEndMinute := 0,
            businessDays := [1, 2, 3, 4, 5] } }
      = .error .onlyActiveCanWarmup := by
  rfl

/- ----------------------------------------------------------------------
   Campaign entity (campaign.entity.ts) and CampaignsService
   (campaigns.service.ts): lifecycle predicates, update/start/pause/
   resume/cancel operations, and the A/B-testing configuration used by
   AbTestingService.
   ---------------------------------------------------------------------- -/

inductive CampaignStatus
  | draft
  | scheduled
  | active
  | paused
  | completed
  | cancelled
  | failed
  deriving DecidableEq, Repr

inductive AbTestType
  | subject
  | content
  | send_time
  deriving DecidableEq, Repr

inductive WinnerCriteria
  | open_rate
  | click_rate
  | reply_rate
  | conversion_rate
  deriving DecidableEq, Repr

/-- Per-variant cumulative performance counters. -/
structure Perf where
  sent : Nat
  opened : Nat
  clicked : Nat
  replied : Nat
  unsubscribed : Nat
  bounced : Nat
  deriving DecidableEq, Repr

/-- A variant's content/config payload; every field is optional. -/
structure VariantConfig where
  subject : Option String
  htmlContent : Option String
  textContent : Option String
  fromName : Option String
  fromEmail : Option String
  sendTime : Option String
  deriving DecidableEq, Repr

structure Variant where
  id : String
  name : String
  weight : Rat
  config : VariantConfig
  performance : Option Perf
  deriving DecidableEq, Repr

structure AbConfig where
  enabled : Bool
  testType : AbTestType
  variants : List Variant
  testSize : Nat
  testDuration : Nat
  winnerCriteria : WinnerCriteria
  winnerSelected : Option String
  deriving DecidableEq, Repr

/-- The campaign's primary (non-experimental) content configuration — the
fields `selectWinner` copies a winning variant's config onto. -/
structure CampaignConfig where
  subject : Option String
  fromName : Option String
  fromEmail : Option String
  htmlContent : Option String
  textContent : Option String
  deriving DecidableEq, Repr

structure TargetFilter where
  field : String
  op : String
  deriving DecidableEq, Repr

structure Targeting where
  contactListIds : List Nat
  filters : Option (List TargetFilter)
  maxContacts : Option Nat
  deriving DecidableEq, Repr

structure Progress where
  totalContacts : Nat
  processedContacts : Nat
  sentEmails : Nat
  failedEmails : Nat
  bouncedEmails : Nat
  unsubscribedEmails : Nat
  repliedEmails : Nat
  openedEmails : Nat
  clickedEmails : Nat
  deriving DecidableEq, Repr

structure Campaign where
  name : String
  status : CampaignStatus
  scheduledAt : Option Nat
  startedAt : Option Nat
  targeting : Option Targeting
  config : CampaignConfig
  progress : Progress
  abTesting : Option AbConfig
  deriving DecidableEq, Repr

/-- A contact list record as `calculateTotalContacts` reads it
(`contactList.totalContacts`, i.e. `stats?.totalContacts || 0`). -/
structure ContactList where
  id : Nat
  totalContacts : Nat
  deriving DecidableEq, Repr

/-- `Campaign.canStart`: status is draft or scheduled. -/
def Campaign.canStart (c : Campaign) : Bool :=
  c.status == .draft || c.status == .scheduled

/-- `Campaign.canPause`: status is active. -/
def Campaign.canPause (c : Campaign) : Bool :=
  c.status == .active

/-- `Campaign.canResume`: status is paused. -/
def Campaign.canResume (c : Campaign) : Bool :=
  c.status == .paused

/-- `Campaign.canCancel`: status is one of draft, scheduled, active, paused. -/
def Campaign.canCancel (c : Campaign) : Bool :=
  [CampaignStatus.draft, .scheduled, .active, .paused].contains c.status

inductive CampaignErr
  | cannotUpdateActive
  | cannotUpdateCompleted
  | cannotStart
  | noContactsFound
  | cannotPause
  | cannotResume
  | cannotCancel
  | abTestNotEnabled
  | variantNotFound
  | abTestOnlyDraft
  | tooFewVariants
  | tooManyVariants
  | badWeightSum
  | emptyVariantsCrash
  deriving DecidableEq, Repr

/-- The mutable fields of `UpdateCampaignDto`; `none` = field absent from the
request. -/
structure UpdateCampaignDto where
  name : Option String
  config : Option CampaignConfig
  targeting : Option Targeting
  scheduledAt : Option Nat
  deriving DecidableEq, Repr

/-- The `Object.assign(campaign, updateCampaignDto)` step: every field present
in the dto overwrites the campaign's field. -/
def applyUpdateDto (c : Campaign) (d : UpdateCampaignDto) : Campaign :=
  { c with
    name := d.name.getD c.name,
    config := d.config.getD c.config,
    targeting := match d.targeting with | some t => some t | none => c.targeting,
    scheduledAt := match d.scheduledAt with | some t => some t | none => c.scheduledAt }

/-- `CampaignsService.updateCampaign`.  Rejects only `active` and `completed`
campaigns; merges the dto; and whenever the dto carries a `scheduledAt`,
forces the status to `scheduled` — including for `cancelled` and `failed`
campaigns. -/
def updateCampaign (c : Campaign) (d : UpdateCampaignDto) : Except CampaignErr Campaign :=
  if c.status = .active then .error .cannotUpdateActive
  else if c.status = .completed then .error .cannotUpdateCompleted
  else
    let c1 := applyUpdateDto c d
    .ok (if d.scheduledAt.isSome then { c1 with status := .scheduled } else c1)

/-- A cancelled campaign, as `updateCampaign` would load it. -/
def cancelledCampaignEx : Campaign :=
  { name := "q4-outreach", status := .cancelled, scheduledAt := none, startedAt := none,
    targeting := none,
    config := { subject := some "hello", fromName := none, fromEmail := none,
                htmlContent := none, textContent := none },
    progress := { totalContacts := 10, processedContacts := 10, sentEmails := 8,
                  failedEmails := 2, bouncedEmails := 0, unsubscribedEmails := 0,
                  repliedEmails := 0, openedEmails := 0, clickedEmails := 0 },
    abTesting := none }

/-- C4 (code bug).  The lifecycle predicates treat `cancelled` as terminal
(`canStart`/`canPause`/`canResume`/`canCancel` are all false), yet
`updateCampaign` accepts a cancelled campaign and, because the dto carries a
`scheduledAt`, silently moves its status to `scheduled` — an outgoing
transition from a terminal state that the transition table says must be
rejected with the status unchanged. -/
theorem updateCampaign_reschedules_cancelled :
    updateCampaign cancelledCampaignEx
        { name := none, config := none, targeting := none, scheduledAt := some 1700000000 }
      = .ok { cancelledCampaignEx with scheduledAt := some 1700000000, status := .scheduled }
    ∧ cancelledCampaignEx.canStart = false
    ∧ cancelledCampaignEx.canPause = false
    ∧ cancelledCampaignEx.canResume = false
    ∧ cancelledCampaignEx.canCancel = false := by
  refine ⟨rfl, rfl, rfl, rfl, rfl⟩

/-- `CampaignsService.calculateTotalContacts`: sums the `totalContacts` of
every referenced contact list that exists, takes 80% (floored) when any
filters are configured, and caps at `maxContacts` when that is set and
non-zero (`0` is falsy in the source's `maxContacts &&` guard). -/
def calculateTotalContacts (lists : List ContactList) (c : Campaign) : Nat :=
  match c.targeting with
  | none => 0
  | some t =>
    let base := t.contactListIds.foldl
      (fun acc lid =>
        match lists.find? (fun l => l.id == lid) with
        | some l => acc + l.totalContacts
        | none => acc) 0
    let afterFilters :=
      match t.filters with
      | some fs => if fs.length > 0 then base * 4 / 5 else base
      | none => base
    match t.maxContacts with
    | some mx => if mx ≠ 0 ∧ afterFilters > mx then mx else afterFilters
    | none => afterFilters

/-- `CampaignsService.startCampaign`: guarded by `canStart`, then by a
non-zero computed contact count; on success sets status `active`, stamps
`startedAt`, snapshots the count into `progress.totalContacts` and resets
`processedContacts` to 0, keeping the other progress counters. -/
def startCampaign (lists : List ContactList) (now : Nat) (c : Campaign) :
    Except CampaignErr Campaign :=
  if !c.canStart then .error .cannotStart
  else
    let totalContacts := calculateTotalContacts lists c
    if totalContacts = 0 then .error .noContactsFound
    else .ok { c with
      status := .active,
      startedAt := some now,
      progress := { c.progress with
        totalContacts := totalContacts, processedContacts := 0 } }

/-- C5 (confirmed).  `startCampaign` succeeds iff the status is draft or
scheduled and the computed target contact count is positive; on success the
status becomes active, `startedAt` is stamped, the count is snapshotted into
progress with processed reset to 0, and every other field is untouched; on
any guard failure an error is returned and (the operation being pure until
the single save) the campaign is unchanged. -/
theorem startCampaign_guard_and_effects (lists : List ContactList) (now : Nat) (c : Campaign) :
    ((∃ c', startCampaign lists now c = .ok c') ↔
      (c.status = .draft ∨ c.status = .scheduled) ∧ 0 < calculateTotalContacts lists c)
    ∧ (∀ c', startCampaign lists now c = .ok c' →
        c'.status = .active
        ∧ c'.startedAt = some now
        ∧ c'.progress.totalContacts = calculateTotalContacts lists c
        ∧ c'.progress.processedContacts = 0
        ∧ c'.progress.sentEmails = c.progress.sentEmails
        ∧ c'.progress.failedEmails = c.progress.failedEmails
        ∧ c'.progress.bouncedEmails = c.progress.bouncedEmails
        ∧ c'.name = c.name
        ∧ c'.config = c.config
        ∧ c'.targeting = c.targeting
        ∧ c'.abTesting = c.abTesting
        ∧ c'.scheduledAt = c.scheduledAt) := by
  have hcs : c.canStart = true ↔ c.status = .draft ∨ c.status = .scheduled := by
    simp [Campaign.canStart]
  by_cases hstart : c.canStart = true
  · by_cases hzero : calculateTotalContacts lists c = 0
    · constructor
      · constructor
        · rintro ⟨c', hc'⟩
          simp [startCampaign, hstart, hzero] at hc'
        · rintro ⟨-, hpos⟩
          omega
      · intro c' hc'
        simp [startCampaign, hstart, hzero] at hc'
    · constructor
      · constructor
        · intro _
          exact ⟨hcs.mp hstart, Nat.pos_of_ne_zero hzero⟩
        · intro _
          refine ⟨{ c with
            status := .active,
            startedAt := some now,
            progress := { c.progress with
              totalContacts := calculateTotalContacts lists c,
              processedContacts := 0 } }, ?_⟩
          simp [startCampaign, hstart, hzero]
      · intro c' hc'
        simp only [startCampaign, hstart, Bool.not_true, Bool.false_eq_true, if_false,
          ite_false, hzero, if_neg hzero, Except.ok.injEq] at hc'
        subst hc'
        exact ⟨rfl, rfl, rfl, rfl, rfl, rfl, rfl, rfl, rfl, rfl, rfl, rfl⟩
  · constructor
    · constructor
      · rintro ⟨c', hc'⟩
        simp [startCampaign, hstart] at hc'
      · rintro ⟨hst, -⟩
        exact absurd (hcs.mpr hst) hstart
    · intro c' hc'
      simp [startCampaign, hstart] at hc'

/-- A draft campaign targeting one 500-contact list, for the C5 witness. -/
def draftCampaignEx : Campaign :=
  { name := "launch", status := .draft, scheduledAt := none, startedAt := none,
    targeting := some { contactListIds := [1], filters := none, maxContacts := none },
    config := { subject := none, fromName := none, fromEmail := none,
                htmlContent := none, textContent := none },
    progress := { totalContacts := 0, processedContacts := 0, sentEmails := 0,
                  failedEmails := 0, bouncedEmails := 0, unsubscribedEmails := 0,
                  repliedEmails := 0, openedEmails := 0, clickedEmails := 0 },
    abTesting := none }

/-- Witness for C5: the draft campaign with 500 targeted contacts starts, and
the started campaign is active with the snapshot taken. -/
theorem startCampaign_guard_and_effects_witness :
    (∃ c', startCampaign [{ id := 1, totalContacts := 500 }] 42 draftCampaignEx = .ok c')
    ∧ ∀ c', startCampaign [{ id := 1, totalContacts := 500 }] 42 draftCampaignEx = .ok c' →
        c'.status = .active ∧ c'.progress.totalContacts = 500 := by
  refine ⟨(startCampaign_guard_and_effects _ 42 draftCampaignEx).1.mpr
    ⟨Or.inl rfl, by decide⟩, ?_⟩
  intro c' hc'
  have h := (startCampaign_guard_and_effects [{ id := 1, totalContacts := 500 }] 42
    draftCampaignEx).2 c' hc'
  exact ⟨h.1, by rw [h.2.2.1]; decide⟩

/- ----------------------------------------------------------------------
   AbTestingService (createAbTest, assignVariantToContact,
   trackVariantPerformance, selectWinner, getAbTestStatus,
   calculateVariantMetrics, calculateOverallScore).
   ---------------------------------------------------------------------- -/

/-- One variant (name, weight, config) as submitted to `createAbTest`. -/
structure AbTestVariantInput where
  name : String
  weight : Rat
  config : VariantConfig
  deriving DecidableEq, Repr

/-- The `testConfig` argument of `createAbTest`. -/
structure AbTestConfigInput where
  testType : AbTestType
  variants : List AbTestVariantInput
  testSize : Nat
  testDuration : Nat
  winnerCriteria : WinnerCriteria
  deriving DecidableEq, Repr

/-- `testConfig.variants.reduce((sum, v) => sum + v.weight, 0)`. -/
def sumWeights (l : List AbTestVariantInput) : Rat :=
  l.foldl (fun s v => s + v.weight) 0

/-- `AbTestingService.createAbTest`.  Rejects non-draft campaigns, fewer than
2 or more than 5 variants, and weight sums outside 100 ± 0.01; otherwise
stores the experiment (enabled, ids `variant-1`, `variant-2`, …, no
performance yet, `winnerSelected: null`). -/
def createAbTest (c : Campaign) (tc : AbTestConfigInput) : Except CampaignErr Campaign :=
  if c.status ≠ .draft then .error .abTestOnlyDraft
  else if tc.variants.length < 2 then .error .tooFewVariants
  else if tc.variants.length > 5 then .error .tooManyVariants
  else if |sumWeights tc.variants - 100| > 1/100 then .error .badWeightSum
  else .ok { c with abTesting := some {
    enabled := true,
    testType := tc.testType,
    variants := tc.variants.enum.map (fun p =>
      { id := "variant-" ++ toString (p.1 + 1), name := p.2.name, weight := p.2.weight,
        config := p.2.config, performance := none }),
    testSize := tc.testSize,
    testDuration := tc.testDuration,
    winnerCriteria := tc.winnerCriteria,
    winnerSelected := none } }

theorem map_enumFrom_proj {α β : Type _} (g : α → β) :
    ∀ (n : Nat) (l : List α), (List.enumFrom n l).map (fun p => g p.2) = l.map g := by
  intro n l
  induction l generalizing n with
  | nil => rfl
  | cons a l ih => simp [List.enumFrom, ih]

/-- C8 (confirmed).  `createAbTest` rejects — leaving the campaign unchanged —
whenever the campaign is not in draft, there are fewer than 2 or more than 5
variants, or the weights miss 100 by more than 0.01; otherwise it stores the
experiment carrying exactly the submitted names, weights and configs, with no
performance recorded and no winner selected. -/
theorem createAbTest_validation (c : Campaign) (tc : AbTestConfigInput) :
    ((∃ c', createAbTest c tc = .ok c') ↔
      c.status = .draft ∧ 2 ≤ tc.variants.length ∧ tc.variants.length ≤ 5
        ∧ |sumWeights tc.variants - 100| ≤ 1/100)
    ∧ (∀ c', createAbTest c tc = .ok c' →
        c'.name = c.name ∧ c'.status = c.status ∧ c'.config = c.config
        ∧ c'.progress = c.progress ∧ c'.targeting = c.targeting
        ∧ c'.scheduledAt = c.scheduledAt ∧ c'.startedAt = c.startedAt
        ∧ ∃ ab, c'.abTesting = some ab
            ∧ ab.enabled = true
            ∧ ab.winnerSelected = none
            ∧ ab.testSize = tc.testSize
            ∧ ab.testDuration = tc.testDuration
            ∧ ab.winnerCriteria = tc.winnerCriteria
            ∧ ab.variants.map Variant.name = tc.variants.map AbTestVariantInput.name
            ∧ ab.variants.map Variant.weight = tc.variants.map AbTestVariantInput.weight
            ∧ ∀ v ∈ ab.variants, v.performance = none) := by
  by_cases hdraft : c.status = .draft
  · by_cases hlow : tc.variants.length < 2
    · constructor
      · constructor
        · rintro ⟨c', hc'⟩
          simp [createAbTest, hdraft, hlow] at hc'
        · rintro ⟨-, h2, -, -⟩
          omega
      · intro c' hc'
        simp [createAbTest, hdraft, hlow] at hc'
    · by_cases hhigh : tc.variants.length > 5
      · constructor
        · constructor
          · rintro ⟨c', hc'⟩
            simp [createAbTest, hdraft, hlow, hhigh] at hc'
          · rintro ⟨-, -, h5, -⟩
            omega
        · intro c' hc'
          simp [createAbTest, hdraft, hlow, hhigh] at hc'
      · by_cases hw : |sumWeights tc.variants - 100| > 1/100
        · have herr : createAbTest c tc = .error .badWeightSum := by
            rw [createAbTest, if_neg (not_not_intro hdraft), if_neg hlow, if_neg hhigh,
              if_pos hw]
          constructor
          · constructor
            · rintro ⟨c', hc'⟩
              rw [herr] at hc'
              cases hc'
            · rintro ⟨-, -, -, hle⟩
              exact absurd hw (not_lt.mpr hle)
          · intro c' hc'
            rw [herr] at hc'
            cases hc'
        · have hok : createAbTest c tc = .ok { c with abTesting := some {
            enabled := true,
            testType := tc.testType,
            variants := tc.variants.enum.map (fun p =>
              { id := "variant-" ++ toString (p.1 + 1), name := p.2.name,
                weight := p.2.weight, config := p.2.config, performance := none }),
            testSize := tc.testSize,
            testDuration := tc.testDuration,
            winnerCriteria := tc.winnerCriteria,
            winnerSelected := none } } := by
            rw [createAbTest, if_neg (not_not_intro hdraft), if_neg hlow, if_neg hhigh,
              if_neg hw]
          constructor
          · constructor
            · intro _
              exact ⟨hdraft, by omega, by omega, not_lt.mp hw⟩
            · intro _
              exact ⟨_, hok⟩
          · intro c' hc'
            rw [hok] at hc'
            injection hc' with hc'
            subst hc'
            refine ⟨rfl, rfl, rfl, rfl, rfl, rfl, rfl, _, rfl, rfl, rfl, rfl, rfl, rfl,
              ?_, ?_, ?_⟩
            · rw [List.enum, List.map_map]
              exact map_enumFrom_proj AbTestVariantInput.name 0 tc.variants
            · rw [List.enum, List.map_map]
              exact map_enumFrom_proj AbTestVariantInput.weight 0 tc.variants
            · intro v hv
              simp only [List.mem_map] at hv
              obtain ⟨p, -, hp⟩ := hv
              rw [← hp]
  · constructor
    · constructor
      · rintro ⟨c', hc'⟩
        simp [createAbTest, hdraft] at hc'
      · rintro ⟨hd, -⟩
        exact absurd hd hdraft
    · intro c' hc'
      simp [createAbTest, hdraft] at hc'

/-- A draft campaign with empty progress, reused by the A/B witnesses. -/
def draftAbCampaignEx : Campaign :=
  { name := "ab-launch", status := .draft, scheduledAt := none, startedAt := none,
    targeting := none,
    config := { subject := some "base", fromName := none, fromEmail := none,
                htmlContent := none, textContent := none },
    progress := { totalContacts := 0, processedContacts := 0, sentEmails := 0,
                  failedEmails := 0, bouncedEmails := 0, unsubscribedEmails := 0,
                  repliedEmails := 0, openedEmails := 0, clickedEmails := 0 },
    abTesting := none }

/-- Witness for C8: two variants weighted 60/40 on a draft campaign are
accepted, and the stored experiment keeps the weights with no winner. -/
theorem createAbTest_validation_witness :
    (∃ c', createAbTest draftAbCampaignEx
      { testType := .subject,
        variants := [
          { name := "A", weight := 60,
            config := { subject := some "subj A", htmlContent := none, textContent := none,
                        fromName := none, fromEmail := none, sendTime := none } },
          { name := "B", weight := 40,
            config := { subject := some "subj B", htmlContent := none, textContent := none,
                        fromName := none, fromEmail := none, sendTime := none } }],
        testSize := 100, testDuration := 24, winnerCriteria := .open_rate } = .ok c') :=
  (createAbTest_validation draftAbCampaignEx _).1.mpr ⟨rfl, by decide, by decide, by
    norm_num [sumWeights]⟩

/-- The weighted walk inside `assignVariantToContact`: accumulate weights in
stored order and return the first variant whose running total is ≥ the draw. -/
def pickVariant (r acc : Rat) : List Variant → Option String
  | [] => none
  | v :: vs => if r ≤ acc + v.weight then some v.id else pickVariant r (acc + v.weight) vs

/-- Running cumulative weight totals of a variant list, starting from `acc`. -/
def cumWeightsFrom (acc : Rat) : List Variant → List Rat
  | [] => []
  | v :: vs => (acc + v.weight) :: cumWeightsFrom (acc + v.weight) vs

/-- `AbTestingService.assignVariantToContact`, with the uniform draw
`Math.random() * 100` passed in as `r`.  Throws (error) when the campaign has
no enabled experiment; otherwise walks the variants and falls back to the
first variant — `variants[0].id`, a runtime crash on an empty list.  The
experiment's `winnerSelected` is never consulted. -/
def assignVariantToContact (c : Campaign) (r : Rat) : Except CampaignErr String :=
  match c.abTesting with
  | none => .error .abTestNotEnabled
  | some ab =>
    if !ab.enabled then .error .abTestNotEnabled
    else
      match pickVariant r 0 ab.variants with
      | some vid => .ok vid
      | none =>
        match ab.variants with
        | [] => .error .emptyVariantsCrash
        | v :: _ => .ok v.id

theorem pickVariant_eq_find (r : Rat) :
    ∀ (l : List Variant) (acc : Rat),
      pickVariant r acc l =
        ((l.zip (cumWeightsFrom acc l)).find? (fun p => decide (r ≤ p.2))).map
          (fun p => p.1.id) := by
  intro l
  induction l with
  | nil => intro acc; rfl
  | cons v vs ih =>
    intro acc
    show (if r ≤ acc + v.weight then some v.id else pickVariant r (acc + v.weight) vs) = _
    by_cases hr : r ≤ acc + v.weight
    · rw [if_pos hr]
      have hfind : ((v, acc + v.weight) :: vs.zip (cumWeightsFrom (acc + v.weight) vs)).find?
          (fun p => decide (r ≤ p.2)) = some (v, acc + v.weight) :=
        List.find?_cons_of_pos _ (by simpa using hr)
      simp [cumWeightsFrom, List.zip_cons_cons, hfind]
    · rw [if_neg hr, ih (acc + v.weight)]
      have hfind : ((v, acc + v.weight) :: vs.zip (cumWeightsFrom (acc + v.weight) vs)).find?
          (fun p => decide (r ≤ p.2)) = (vs.zip (cumWeightsFrom (acc + v.weight) vs)).find?
          (fun p => decide (r ≤ p.2)) :=
        List.find?_cons_of_neg _ (by simpa using hr)
      simp [cumWeightsFrom, List.zip_cons_cons, hfind]

/-- C7 (amended).  With the draw `r` in [0,100): when the campaign has no
enabled experiment, `assignVariantToContact` raises an error (it does not
return the non-experimental configuration); when the experiment is enabled it
returns the id of the first variant, in stored order, whose cumulative weight
is ≥ r, and falls back to the first variant when the walk exhausts the list;
the stored `winnerSelected` is never consulted, so assignment keeps happening
after a winner has been selected. -/
theorem assignVariant_amended (c : Campaign) (r : Rat) :
    (c.abTesting = none → assignVariantToContact c r = .error .abTestNotEnabled)
    ∧ (∀ ab, c.abTesting = some ab → ab.enabled = false →
        assignVariantToContact c r = .error .abTestNotEnabled)
    ∧ (∀ ab, c.abTesting = some ab → ab.enabled = true →
        (∀ pr, (ab.variants.zip (cumWeightsFrom 0 ab.variants)).find?
            (fun p => decide (r ≤ p.2)) = some pr →
          assignVariantToContact c r = .ok pr.1.id)
        ∧ ((ab.variants.zip (cumWeightsFrom 0 ab.variants)).find?
            (fun p => decide (r ≤ p.2)) = none →
          ∀ v vs, ab.variants = v :: vs → assignVariantToContact c r = .ok v.id)
        ∧ (∀ w, assignVariantToContact
            { c with abTesting := some { ab with winnerSelected := w } } r
            = assignVariantToContact c r)) := by
  refine ⟨?_, ?_, ?_⟩
  · intro hnone
    simp [assignVariantToContact, hnone]
  · intro ab hab hdis
    simp [assignVariantToContact, hab, hdis]
  · intro ab hab hen
    refine ⟨?_, ?_, ?_⟩
    · intro pr hfind
      simp only [assignVariantToContact, hab, hen, Bool.not_true, Bool.false_eq_true,
        if_false, ite_false]
      rw [pickVariant_eq_find r ab.variants 0, hfind]
      simp
    · intro hfind v vs hvs
      simp only [assignVariantToContact, hab, hen, Bool.not_true, Bool.false_eq_true,
        if_false, ite_false]
      rw [pickVariant_eq_find r ab.variants 0, hfind, hvs]
      simp
    · intro w
      simp [assignVariantToContact, hab]

/-- Variant A of the decided experiment (weight 50, stored first). -/
def variantAEx : Variant :=
  { id := "variant-1", name := "A", weight := 50,
    config := { subject := some "subj A", htmlContent := none, textContent := none,
                fromName := none, fromEmail := none, sendTime := none },
    performance := none }

/-- Variant B of the decided experiment (weight 50, stored second). -/
def variantBEx : Variant :=
  { id := "variant-2", name := "B", weight := 50,
    config := { subject := some "subj B", htmlContent := none, textContent := none,
                fromName := none, fromEmail := none, sendTime := none },
    performance := none }

/-- The experiment configuration of the decided campaign: enabled, variants A
and B, test size 100, no sends recorded yet, winner already variant-1. -/
def decidedAbConfigEx : AbConfig :=
  { enabled := true, testType := .subject, variants := [variantAEx, variantBEx],
    testSize := 100, testDuration := 24, winnerCriteria := .open_rate,
    winnerSelected := some "variant-1" }

/-- A campaign with an enabled 50/50 experiment whose winner is already
recorded as variant-1. -/
def winnerAssignedCampaignEx : Campaign :=
  { name := "decided", status := .active, scheduledAt := none, startedAt := some 5,
    targeting := none,
    config := { subject := some "base", fromName := none, fromEmail := none,
                htmlContent := none, textContent := none },
    progress := { totalContacts := 0, processedContacts := 0, sentEmails := 0,
                  failedEmails := 0, bouncedEmails := 0, unsubscribedEmails := 0,
                  repliedEmails := 0, openedEmails := 0, clickedEmails := 0 },
    abTesting := some decidedAbConfigEx }

/-- C7 counterexample.  The claim says a campaign with a selected winner
assigns no variant; the code still assigns one: with `winnerSelected =
variant-1` already recorded, a draw of 0 returns variant-1 again. -/
theorem assignVariant_ignores_winner :
    winnerAssignedCampaignEx.abTesting.map AbConfig.winnerSelected
      = some (some "variant-1")
    ∧ assignVariantToContact winnerAssignedCampaignEx 0 = .ok "variant-1" := by
  constructor
  · rfl
  · show assignVariantToContact winnerAssignedCampaignEx 0 = .ok "variant-1"
    have h0 : ((0 : Rat) ≤ 0 + (50 : Rat)) := by norm_num
    simp [assignVariantToContact, winnerAssignedCampaignEx, decidedAbConfigEx,
      pickVariant, variantAEx, h0]

/-- Witness for C7's amended theorem: on the decided campaign, a draw of 60
lands in variant-2's cumulative band (50 < 60 ≤ 100). -/
theorem assignVariant_amended_witness :
    assignVariantToContact winnerAssignedCampaignEx 60 = .ok "variant-2" := by
  have h := ((assignVariant_amended winnerAssignedCampaignEx 60).2.2
    decidedAbConfigEx rfl rfl).1
  refine h (variantBEx, 100) ?_
  show ([variantAEx, variantBEx].zip
    (cumWeightsFrom 0 [variantAEx, variantBEx])).find?
    (fun p => decide ((60 : Rat) ≤ p.2)) = some (variantBEx, 100)
  have hA : ¬ ((60 : Rat) ≤ 0 + 50) := by norm_num
  have hB : ((60 : Rat) ≤ 0 + 50 + 50) := by norm_num
  simp [cumWeightsFrom, List.find?, variantAEx, variantBEx]
  norm_num

/-- The JS truthiness guard `if (variant.config.X)` used when copying a
winning variant's config field onto the campaign: a present, non-empty string
overwrites, anything else keeps the old value. -/
def applyIfPresent (fieldVal old : Option String) : Option String :=
  match fieldVal with
  | some s => if s = "" then old else some s
  | none => old

/-- The config-copy step of `selectWinner`: each of subject, htmlContent,
textContent, fromName, fromEmail is overwritten when the variant provides a
truthy value. -/
def mergeWinnerConfig (cc : CampaignConfig) (vc : VariantConfig) : CampaignConfig :=
  { subject := applyIfPresent vc.subject cc.subject,
    htmlContent := applyIfPresent vc.htmlContent cc.htmlContent,
    textContent := applyIfPresent vc.textContent cc.textContent,
    fromName := applyIfPresent vc.fromName cc.fromName,
    fromEmail := applyIfPresent vc.fromEmail cc.fromEmail }

/-- `AbTestingService.selectWinner`.  Requires only that the experiment is
enabled and the variant id exists; records the winner (overwriting any
previous one) and copies the variant's config onto the campaign config. -/
def selectWinner (c : Campaign) (vid : String) : Except CampaignErr Campaign :=
  match c.abTesting with
  | none => .error .abTestNotEnabled
  | some ab =>
    if !ab.enabled then .error .abTestNotEnabled
    else
      match ab.variants.find? (fun v => v.id == vid) with
      | none => .error .variantNotFound
      | some v => .ok { c with
          abTesting := some { ab with winnerSelected := some vid },
          config := mergeWinnerConfig c.config v.config }

/-- `reduce((sum, v) => sum + (v.performance?.sent || 0), 0)` from
`getAbTestStatus`. -/
def totalSentOf (ab : AbConfig) : Nat :=
  ab.variants.foldl (fun s v => s + ((v.performance.map Perf.sent).getD 0)) 0

/-- `getAbTestStatus`'s `canSelectWinner`: the test is complete (total sent
across variants has reached `testSize`) and no winner is recorded yet. -/
def canSelectWinner (ab : AbConfig) : Bool :=
  decide (ab.testSize ≤ totalSentOf ab) && ab.winnerSelected.isNone

/-- C6 (amended).  `selectWinner` succeeds iff the experiment is enabled and
the variant id exists — it checks neither the sent total against `testSize`
nor whether a winner is already recorded, so a second invocation succeeds and
overwrites the previous winner.  On success the chosen id is recorded and the
variant's config is merged onto the campaign config, all else unchanged.  The
`testSize`/one-shot gate exists only as the advisory `canSelectWinner` flag of
`getAbTestStatus`, which is true iff total sent ≥ testSize and no winner is
recorded; `selectWinner` does not consult it. -/
theorem selectWinner_amended (c : Campaign) (vid : String) :
    ((∃ c', selectWinner c vid = .ok c') ↔
      ∃ ab, c.abTesting = some ab ∧ ab.enabled = true ∧ ∃ v ∈ ab.variants, v.id = vid)
    ∧ (∀ c' ab, selectWinner c vid = .ok c' → c.abTesting = some ab →
        ∃ v, ab.variants.find? (fun u => u.id == vid) = some v
          ∧ c' = { c with
              abTesting := some { ab with winnerSelected := some vid },
              config := mergeWinnerConfig c.config v.config })
    ∧ (∀ ab : AbConfig, canSelectWinner ab = true ↔
        ab.testSize ≤ totalSentOf ab ∧ ab.winnerSelected = none) := by
  refine ⟨?_, ?_, ?_⟩
  · constructor
    · rintro ⟨c', hc'⟩
      cases hab : c.abTesting with
      | none => simp [selectWinner, hab] at hc'
      | some ab =>
        refine ⟨ab, rfl, ?_, ?_⟩
        · cases hen : ab.enabled with
          | false => simp [selectWinner, hab, hen] at hc'
          | true => rfl
        · cases hen : ab.enabled with
          | false => simp [selectWinner, hab, hen] at hc'
          | true =>
            cases hfind : ab.variants.find? (fun v => v.id == vid) with
            | none => simp [selectWinner, hab, hen, hfind] at hc'
            | some v =>
              refine ⟨v, List.mem_of_find?_eq_some hfind, ?_⟩
              have := List.find?_some hfind
              simpa using this
    · rintro ⟨ab, hab, hen, v, hv, hvid⟩
      have hsome : (ab.variants.find? (fun u => u.id == vid)).isSome := by
        rw [List.find?_isSome]
        exact ⟨v, hv, by simpa using hvid⟩
      obtain ⟨u, hu⟩ := Option.isSome_iff_exists.mp hsome
      refine ⟨{ c with
        abTesting := some { ab with winnerSelected := some vid },
        config := mergeWinnerConfig c.config u.config }, ?_⟩
      simp [selectWinner, hab, hen, hu]
  · intro c' ab hc' hab
    cases hen : ab.enabled with
    | false => simp [selectWinner, hab, hen] at hc'
    | true =>
      cases hfind : ab.variants.find? (fun v => v.id == vid) with
      | none => simp [selectWinner, hab, hen, hfind] at hc'
      | some v =>
        refine ⟨v, rfl, ?_⟩
        simp only [selectWinner, hab, hen, Bool.not_true, Bool.false_eq_true, if_false,
          ite_false, hfind, Except.ok.injEq] at hc'
        exact hc'.symm
  · intro ab
    simp [canSelectWinner, Option.isNone_iff_eq_none]

/-- Witness for C6's amended theorem: on the decided campaign (winner already
variant-1, zero sends against a test size of 100, so `canSelectWinner` is
false), selecting variant-2 still succeeds. -/
theorem selectWinner_amended_witness :
    (∃ c', selectWinner winnerAssignedCampaignEx "variant-2" = .ok c')
    ∧ canSelectWinner decidedAbConfigEx = false :=
  ⟨(selectWinner_amended winnerAssignedCampaignEx "variant-2").1.mpr
    ⟨decidedAbConfigEx, rfl, rfl, variantBEx, by decide, rfl⟩,
   by decide⟩

/-- C6 counterexample.  The decided campaign has a recorded winner and zero
sends (far below its test size of 100) — the claim says a second `selectWinner`
must be rejected with the winner unchanged — yet the call succeeds and the
recorded winner flips from variant-1 to variant-2. -/
theorem selectWinner_overwrites_winner :
    winnerAssignedCampaignEx.abTesting.map AbConfig.winnerSelected
      = some (some "variant-1")
    ∧ canSelectWinner decidedAbConfigEx = false
    ∧ (selectWinner winnerAssignedCampaignEx "variant-2").map
        (fun c => c.abTesting.map AbConfig.winnerSelected)
      = .ok (some (some "variant-2")) := by
  refine ⟨rfl, by decide, ?_⟩
  rfl

/- ----------------------------------------------------------------------
   AbTestingService.calculateVariantMetrics / calculateOverallScore.
   ---------------------------------------------------------------------- -/

/-- JS `Math.round(q * 100) / 100` (round half toward +infinity), exactly on
rationals. -/
def round2 (q : Rat) : Rat :=
  ((⌊q * 100 + 1/2⌋ : Int) : Rat) / 100

/-- `sent > 0 ? (count / sent) * 100 : 0` — a counter as a percentage of
sends. -/
def rateOf (count sent : Nat) : Rat :=
  if 0 < sent then ((count : Rat) / (sent : Rat)) * 100 else 0

/-- The metrics record built by `calculateVariantMetrics` (its `overallScore`
placeholder is 0 and is filled in by the caller). -/
structure VariantMetrics where
  openRate : Rat
  clickRate : Rat
  replyRate : Rat
  unsubscribeRate : Rat
  bounceRate : Rat
  overallScore : Rat
  deriving DecidableEq, Repr

/-- `AbTestingService.calculateVariantMetrics`: each engagement rate as a
percentage of sends (0 when nothing was sent), rounded to 2 decimals. -/
def calculateVariantMetrics (p : Perf) : VariantMetrics :=
  { openRate := round2 (rateOf p.opened p.sent),
    clickRate := round2 (rateOf p.clicked p.sent),
    replyRate := round2 (rateOf p.replied p.sent),
    unsubscribeRate := round2 (rateOf p.unsubscribed p.sent),
    bounceRate := round2 (rateOf p.bounced p.sent),
    overallScore := 0 }

/-- `AbTestingService.calculateOverallScore`: criterion-weighted engagement
composite, minus unsubscribe and bounce penalties, rounded to 2 decimals and
floored at 0. -/
def calculateOverallScore (m : VariantMetrics) (w : WinnerCriteria) : Rat :=
  let base :=
    match w with
    | .open_rate => m.openRate * (4/10) + m.clickRate * (3/10) + m.replyRate * (3/10)
    | .click_rate => m.clickRate * (5/10) + m.openRate * (3/10) + m.replyRate * (2/10)
    | .reply_rate => m.replyRate * (6/10) + m.clickRate * (3/10) + m.openRate * (1/10)
    | .conversion_rate => m.replyRate * (5/10) + m.clickRate * (3/10) + m.openRate * (2/10)
  let s := base - m.unsubscribeRate * (5/10) - m.bounceRate * (3/10)
  max 0 (round2 s)

/-- Variant A's counters from the spec scenario: sent 100, opened 40. -/
def perfAEx : Perf :=
  { sent := 100, opened := 40, clicked := 0, replied := 0, unsubscribed := 0, bounced := 0 }

/-- Variant B's counters from the spec scenario: sent 80, opened 48. -/
def perfBEx : Perf :=
  { sent := 80, opened := 48, clicked := 0, replied := 0, unsubscribed := 0, bounced := 0 }

/-- C9 (amended).  Under the `open_rate` criterion a variant's score is
`max 0 (round2 (0.4*open + 0.3*click + 0.3*reply − 0.5*unsub − 0.3*bounce))`
where each rate is the counter as a percentage of sends (0 when sent = 0)
**rounded to two decimals** before weighting, and the final score is likewise
rounded to two decimals before the floor at 0; on the spec's scenario
A(sent=100, opened=40) scores 16 and B(sent=80, opened=48) scores 24, so B
outranks A and is selected winner. -/
theorem overallScore_open_rate_amended :
    (∀ p : Perf,
      calculateOverallScore (calculateVariantMetrics p) .open_rate
        = max 0 (round2 (round2 (rateOf p.opened p.sent) * (4/10)
            + round2 (rateOf p.clicked p.sent) * (3/10)
            + round2 (rateOf p.replied p.sent) * (3/10)
            - round2 (rateOf p.unsubscribed p.sent) * (5/10)
            - round2 (rateOf p.bounced p.sent) * (3/10))))
    ∧ calculateOverallScore (calculateVariantMetrics perfAEx) .open_rate = 16
    ∧ calculateOverallScore (calculateVariantMetrics perfBEx) .open_rate = 24
    ∧ calculateOverallScore (calculateVariantMetrics perfAEx) .open_rate
        < calculateOverallScore (calculateVariantMetrics perfBEx) .open_rate := by
  refine ⟨fun p => rfl, ?_, ?_, ?_⟩
  · show max 0 (round2 _) = 16
    norm_num [calculateVariantMetrics, calculateOverallScore, rateOf, round2, perfAEx]
  · show max 0 (round2 _) = 24
    norm_num [calculateVariantMetrics, calculateOverallScore, rateOf, round2, perfBEx]
  · norm_num [calculateVariantMetrics, calculateOverallScore, rateOf, round2,
      perfAEx, perfBEx]

/-- C9 counterexample.  For sent = 3, opened = 1 the claim's exact formula
gives 0.4 · (1/3 · 100) = 40/3 = 13.33…, but the code rounds the rate and the
score to two decimals and returns 13.33, so the claimed equality fails. -/
theorem overallScore_rounding_deviates :
    calculateOverallScore (calculateVariantMetrics
      { sent := 3, opened := 1, clicked := 0, replied := 0,
        unsubscribed := 0, bounced := 0 }) .open_rate = 1333/100
    ∧ calculateOverallScore (calculateVariantMetrics
      { sent := 3, opened := 1, clicked := 0, replied := 0,
        unsubscribed := 0, bounced := 0 }) .open_rate
      ≠ max 0 (((1 : Rat)/3 * 100) * (4/10) + 0 * (3/10) + 0 * (3/10)
          - 0 * (5/10) - 0 * (3/10)) := by
  constructor
  · norm_num [calculateVariantMetrics, calculateOverallScore, rateOf, round2]
  · norm_num [calculateVariantMetrics, calculateOverallScore, rateOf, round2]

/- ----------------------------------------------------------------------
   AbTestingService.trackVariantPerformance.
   ---------------------------------------------------------------------- -/

/-- The six tracked outcome events. -/
inductive TrackEvent
  | sent
  | opened
  | clicked
  | replied
  | unsubscribed
  | bounced
  deriving DecidableEq, Repr

/-- The zero counter set installed when a variant's `performance` is missing. -/
def emptyPerf : Perf :=
  { sent := 0, opened := 0, clicked := 0, replied := 0, unsubscribed := 0, bounced := 0 }

/-- Increment the one counter named by the event. -/
def bumpPerf (e : TrackEvent) (p : Perf) : Perf :=
  match e with
  | .sent => { p with sent := p.sent + 1 }
  | .opened => { p with opened := p.opened + 1 }
  | .clicked => { p with clicked := p.clicked + 1 }
  | .replied => { p with replied := p.replied + 1 }
  | .unsubscribed => { p with unsubscribed := p.unsubscribed + 1 }
  | .bounced => { p with bounced := p.bounced + 1 }

/-- Read the counter a given event names. -/
def perfCount (e : TrackEvent) (p : Perf) : Nat :=
  match e with
  | .sent => p.sent
  | .opened => p.opened
  | .clicked => p.clicked
  | .replied => p.replied
  | .unsubscribed => p.unsubscribed
  | .bounced => p.bounced

/-- The `variants.find(v => v.id === variantId)` + in-place mutation step of
`trackVariantPerformance`: update the first variant with the given id
(initialising missing performance to zeros), returning `none` when no variant
matches. -/
def trackUpdateVariants (vid : String) (e : TrackEvent) :
    List Variant → Option (List Variant)
  | [] => none
  | v :: vs =>
    if v.id = vid then
      some ({ v with performance := some (bumpPerf e (v.performance.getD emptyPerf)) } :: vs)
    else
      (trackUpdateVariants vid e vs).map (v :: ·)

/-- `AbTestingService.trackVariantPerformance`.  Returns the campaign
unchanged when there is no enabled experiment or the variant id matches no
variant (only a warning is logged); otherwise bumps exactly the event's
counter on the first matching variant. -/
def trackVariantPerformance (c : Campaign) (vid : String) (e : TrackEvent) : Campaign :=
  match c.abTesting with
  | none => c
  | some ab =>
    if !ab.enabled then c
    else
      match trackUpdateVariants vid e ab.variants with
      | none => c
      | some vs' => { c with abTesting := some { ab with variants := vs' } }

theorem trackUpdateVariants_none (vid : String) (e : TrackEvent) :
    ∀ l : List Variant, (∀ v ∈ l, v.id ≠ vid) → trackUpdateVariants vid e l = none := by
  intro l
  induction l with
  | nil => intro _; rfl
  | cons v vs ih =>
    intro hall
    have hv : v.id ≠ vid := hall v (List.mem_cons_self v vs)
    simp only [trackUpdateVariants, hv, if_false, ite_false]
    rw [ih (fun u hu => hall u (List.mem_cons_of_mem v hu))]
    rfl

theorem trackUpdateVariants_found (vid : String) (e : TrackEvent) (v : Variant)
    (hv : v.id = vid) :
    ∀ (l₁ l₂ : List Variant), (∀ u ∈ l₁, u.id ≠ vid) →
      trackUpdateVariants vid e (l₁ ++ v :: l₂) =
        some (l₁ ++
          { v with performance := some (bumpPerf e (v.performance.getD emptyPerf)) } :: l₂) := by
  intro l₁
  induction l₁ with
  | nil =>
    intro l₂ _
    simp [trackUpdateVariants, hv]
  | cons u us ih =>
    intro l₂ hall
    have hu : u.id ≠ vid := hall u (List.mem_cons_self u us)
    simp only [List.cons_append, trackUpdateVariants, hu, if_false, ite_false,
      List.append_eq]
    rw [ih l₂ (fun w hw => hall w (List.mem_cons_of_mem u hw))]
    rfl

/-- C10 (confirmed).  `trackVariantPerformance` is total (it never throws):
with no experiment, a disabled experiment, or an unknown variant id it returns
the campaign unchanged; when the id matches, the first matching variant gets
exactly the event's counter incremented by 1 — every other counter of that
variant, its identity/weight/config, all other variants, the experiment's
winner and sizes, and every other campaign field are unchanged (a missing
performance record reads as all-zero counters, as every consumer of these
counters reads it). -/
theorem trackVariantPerformance_frame (c : Campaign) (vid : String) (e : TrackEvent) :
    (c.abTesting = none → trackVariantPerformance c vid e = c)
    ∧ (∀ ab, c.abTesting = some ab → ab.enabled = false →
        trackVariantPerformance c vid e = c)
    ∧ (∀ ab, c.abTesting = some ab → ab.enabled = true →
        (∀ v ∈ ab.variants, v.id ≠ vid) → trackVariantPerformance c vid e = c)
    ∧ (∀ ab v l₁ l₂, c.abTesting = some ab → ab.enabled = true →
        ab.variants = l₁ ++ v :: l₂ → v.id = vid → (∀ u ∈ l₁, u.id ≠ vid) →
        ∃ v', trackVariantPerformance c vid e =
            { c with abTesting := some { ab with variants := l₁ ++ v' :: l₂ } }
          ∧ v'.id = v.id ∧ v'.name = v.name ∧ v'.weight = v.weight ∧ v'.config = v.config
          ∧ (∀ e', perfCount e' (v'.performance.getD emptyPerf)
              = perfCount e' (v.performance.getD emptyPerf)
                + (if e' = e then 1 else 0))) := by
  refine ⟨?_, ?_, ?_, ?_⟩
  · intro hnone
    simp [trackVariantPerformance, hnone]
  · intro ab hab hdis
    simp [trackVariantPerformance, hab, hdis]
  · intro ab hab hen hall
    simp [trackVariantPerformance, hab, hen, trackUpdateVariants_none vid e ab.variants hall]
  · intro ab v l₁ l₂ hab hen hsplit hv hall
    refine ⟨{ v with performance := some (bumpPerf e (v.performance.getD emptyPerf)) },
      ?_, rfl, rfl, rfl, rfl, ?_⟩
    · simp only [trackVariantPerformance, hab, hen, Bool.not_true, Bool.false_eq_true,
        if_false, ite_false, hsplit]
      rw [trackUpdateVariants_found vid e v hv l₁ l₂ hall]
    · intro e'
      by_cases he : e' = e
      · subst he
        cases e' <;> simp [bumpPerf, perfCount]
      · rw [if_neg he]
        cases e' <;> cases e <;> simp_all [bumpPerf, perfCount]

/-- A campaign whose enabled experiment has variant-1 with recorded
performance and variant-2 with none, for the C10 witness. -/
def trackCampaignEx : Campaign :=
  { name := "tracking", status := .active, scheduledAt := none, startedAt := some 5,
    targeting := none,
    config := { subject := some "base", fromName := none, fromEmail := none,
                htmlContent := none, textContent := none },
    progress := { totalContacts := 0, processedContacts := 0, sentEmails := 0,
                  failedEmails := 0, bouncedEmails := 0, unsubscribedEmails := 0,
                  repliedEmails := 0, openedEmails := 0, clickedEmails := 0 },
    abTesting := some {
      enabled := true, testType := .subject,
      variants := [variantAEx, variantBEx],
      testSize := 100, testDuration := 24, winnerCriteria := .open_rate,
      winnerSelected := none } }

/-- Witness for C10: an `opened` event against variant-2 of the tracking
campaign bumps only variant-2's opened counter (0 → 1) and leaves its sent
counter at 0; an unknown id leaves the campaign untouched. -/
theorem trackVariantPerformance_frame_witness :
    (∃ v', trackVariantPerformance trackCampaignEx "variant-2" .opened =
        { trackCampaignEx with abTesting := some {
            enabled := true, testType := .subject,
            variants := [variantAEx] ++ v' :: [],
            testSize := 100, testDuration := 24, winnerCriteria := .open_rate,
            winnerSelected := none } }
      ∧ perfCount .opened (v'.performance.getD emptyPerf) = 1
      ∧ perfCount .sent (v'.performance.getD emptyPerf) = 0)
    ∧ trackVariantPerformance trackCampaignEx "variant-9" .opened = trackCampaignEx := by
  constructor
  · obtain ⟨v', heq, -, -, -, -, hcnt⟩ :=
      (trackVariantPerformance_frame trackCampaignEx "variant-2" .opened).2.2.2
        { enabled := true, testType := .subject,
          variants := [variantAEx, variantBEx],
          testSize := 100, testDuration := 24, winnerCriteria := .open_rate,
          winnerSelected := none }
        variantBEx [variantAEx] [] rfl rfl rfl rfl
        (by intro u hu; simp only [List.mem_singleton] at hu; subst hu; decide)
    refine ⟨v', heq, ?_, ?_⟩
    · have h := hcnt .opened
      simpa [variantBEx, emptyPerf, perfCount] using h
    · have h := hcnt .sent
      simpa [variantBEx, emptyPerf, perfCount] using h
  · exact (trackVariantPerformance_frame trackCampaignEx "variant-9" .opened).2.2.1
      { enabled := true, testType := .subject,
        variants := [variantAEx, variantBEx],
        testSize := 100, testDuration := 24, winnerCriteria := .open_rate,
        winnerSelected := none } rfl rfl
      (by intro v hv
          simp only [List.mem_cons, List.mem_singleton] at hv
          rcases hv with h | h | h
          · subst h; decide
          · subst h; decide
          · cases h)

/-- An active mailbox restricted to Monday–Friday 09:00–17:00, for the C2
witness. -/
def activeMailboxEx : Mailbox :=
  { status := .active, isActive := true,
    sendingConfig := some
      { maxEmailsPerDay := 1000, maxEmailsPerHour := 100, maxEmailsPerMinute := 10,
        warmupEnabled := false, warmupRate := 50, warmupIncrement := 10,
        currentWarmupRate := 50, timezone := "UTC", businessHoursOnly := true,
        businessHoursStartHour := 9, businessHoursStartMinute := 0,
        businessHoursEndHour := 17, businessHoursEndMinute := 0,
        businessDays := [1, 2, 3, 4, 5] } }

/-- Witness for C2's amended theorem: the restricted active mailbox is
eligible on a Tuesday at 10:30. -/
theorem eligible_iff_amended_witness :
    eligible activeMailboxEx { weekday := 2, hour := 10, minute := 30 } = true :=
  (eligible_iff_amended activeMailboxEx { weekday := 2, hour := 10, minute := 30 }).mpr
    ⟨rfl, rfl, fun cfg hcfg _ => by
      have hc := Option.some.inj hcfg
      subst hc
      exact ⟨by decide, by decide, by decide⟩⟩
